import Mathlib

set_option autoImplicit false

namespace Showtimes

/-!
# Verification of the showtimes scraper (src/index.js)

Shallow embedding of the Google Movies showtime scraper.  Strings are
modelled as `List Char` (`Str`); the JavaScript string operations used by
the source (`split`, `trim`, `replace` with a string pattern, regex
substring tests, `[^\x00-\x7F]` stripping) are reimplemented below with
JavaScript semantics.  Cheerio fragments are modelled as structures whose
fields hold the texts/attributes the scraper reads; the two places where
the scraper mutates the DOM (the `<br>` rewrite of the last `.info`
element and the removal of the last child of `#SynopsisSecond0`) are
modelled by returning an updated fragment.
-/

/-- Strings as lists of characters. -/
abbrev Str := List Char

/-- Coerce a Lean string literal into the `Str` model. -/
def str (s : String) : Str := s.data

/-- `_removeNonAsciiCharacters` on a string: drop every character outside
`\x00-\x7F` (source line 541: `thing.replace(/[^\x00-\x7F]/g, '')`). -/
def asciiOnly (s : Str) : Str := s.filter (fun c => c.toNat ≤ 0x7F)

/-- The JavaScript `WhiteSpace`/`LineTerminator` characters recognised by
`String.prototype.trim`. -/
def jsWhite (c : Char) : Bool :=
  c = ' ' ∨ c = '\t' ∨ c = '\n' ∨ c = '\x0b' ∨ c = '\x0c' ∨ c = '\r' ∨
  c = '\xa0' ∨ c.toNat = 0x1680 ∨ (0x2000 ≤ c.toNat ∧ c.toNat ≤ 0x200a) ∨
  c.toNat = 0x2028 ∨ c.toNat = 0x2029 ∨ c.toNat = 0x202f ∨
  c.toNat = 0x205f ∨ c.toNat = 0x3000 ∨ c.toNat = 0xfeff

/-- JavaScript `String.prototype.trim`. -/
def jsTrim (s : Str) : Str :=
  ((s.dropWhile jsWhite).reverse.dropWhile jsWhite).reverse

/-- Does `pre` occur at the very start of `s`?  (Used to implement the
JavaScript regex/substring operations of the source.) -/
def leadsWith : Str → Str → Bool
  | [], _ => true
  | _ :: _, [] => false
  | p :: ps, c :: cs => p = c && leadsWith ps cs

/-- Does `pat` occur anywhere in `s`?  Models a regex test such as
`info[0].match(/(hr |min)/)` for a literal alternative. -/
def containsSub (pat : Str) : Str → Bool
  | [] => leadsWith pat []
  | c :: cs => leadsWith pat (c :: cs) || containsSub pat cs

/-- ASCII lower-casing, used for the case-insensitive `/(IMDB|Trailer)/i`
test. -/
def lcAscii (s : Str) : Str := s.map Char.toLower

/-- Case-insensitive substring test (`/(IMDB|Trailer)/i`). -/
def containsCI (pat : Str) (s : Str) : Bool :=
  containsSub (lcAscii pat) (lcAscii s)

/-- JavaScript `String.prototype.replace` with a string (or
non-global regex) pattern: replace the first occurrence only. -/
def replaceFirst (pat rep : Str) : Str → Str
  | [] => []
  | c :: cs =>
    if leadsWith pat (c :: cs) ∧ pat ≠ [] then rep ++ (c :: cs).drop pat.length
    else c :: replaceFirst pat rep cs

/-- Remove every occurrence of `pat` (leftmost first, non-overlapping).
The scan is left to right; `acc` holds the already-processed characters in
reverse, and a match is detected when the last `pat.length` processed
characters are exactly `pat`.  Used to model the text rendering of markup
containing `<br>` tags. -/
def removeAllGo (pat : Str) : Str → Str → Str
  | [], acc => acc.reverse
  | c :: cs, acc =>
    let acc2 := c :: acc
    if leadsWith pat.reverse acc2 ∧ pat ≠ [] then
      removeAllGo pat cs (acc2.drop pat.length)
    else removeAllGo pat cs acc2

/-- Remove every occurrence of the non-empty `pat` (leftmost first). -/
def removeAll (pat : Str) (s : Str) : Str := removeAllGo pat s []

/-- Worker for `String.prototype.split` with a string separator.  The scan
is left to right; `acc` holds the characters of the current piece in
reverse, and the piece is cut as soon as its last `sep.length` characters
are exactly `sep` (leftmost, non-overlapping — JavaScript semantics). -/
def splitGo (sep : Str) : Str → Str → List Str
  | [], acc => [acc.reverse]
  | c :: cs, acc =>
    let acc2 := c :: acc
    if leadsWith sep.reverse acc2 ∧ sep ≠ [] then
      (acc2.drop sep.length).reverse :: splitGo sep cs []
    else splitGo sep cs acc2

/-- JavaScript `s.split(sep)` for a non-empty string separator. -/
def splitOnSub (sep : Str) (s : Str) : List Str := splitGo sep s []

/-- JavaScript `s.split(c)` for a single-character separator. -/
def splitChar (c : Char) (s : Str) : List Str := splitOnSub [c] s

/-! ## Showtime extraction (`_parseShowtimes`, source lines 446-494) -/

/-- First match of the regex `/(am|pm)/` on a string: scan left to right,
trying the alternative `am` before `pm` at each position. -/
def firstMarker : Str → Option Str
  | [] => none
  | c :: cs =>
    if leadsWith (str "am") (c :: cs) then some (str "am")
    else if leadsWith (str "pm") (c :: cs) then some (str "pm")
    else firstMarker cs

/-- The body of the `getTime` closure (source lines 455-466).  The first
component of the state/result is the captured `meridiem` variable
(`false` initially, modelled as `none`). -/
def getTime (meridiem : Option Str) (rawTime : Str) : Option Str × Str :=
  let showtime := jsTrim (asciiOnly rawTime)
  match firstMarker showtime with
  | some m => (some m, showtime)
  | none =>
    match meridiem with
    | some m => (meridiem, showtime ++ m)
    | none => (meridiem, showtime)

/-- `_.map` with a stateful callback, threading the closed-over state left
to right. -/
def mapWithState {σ α β : Type} (f : σ → α → σ × β) : σ → List α → σ × List β
  | st, [] => (st, [])
  | st, a :: as =>
    let r := f st a
    let rest := mapWithState f r.1 as
    (rest.1, r.2 :: rest.2)

/-- The time list produced by `_parseShowtimes` from a list of raw time
tokens: `_.map(showtimes.reverse(), getTime.bind(this)).reverse()`
(source line 473). -/
def parseShowtimesTimes (tokens : List Str) : List Str :=
  ((mapWithState getTime none tokens.reverse).2).reverse

/-- The explicit meridiem of the chronologically first token (after
cleaning) of a list that states one, if any. -/
def firstExplicit : List Str → Option Str
  | [] => none
  | t :: ts =>
    match firstMarker (jsTrim (asciiOnly t)) with
    | some m => some m
    | none => firstExplicit ts

/-- Specification-side rendering of one token: clean it; a token stating a
meridiem is kept as cleaned; otherwise the meridiem `m?` inherited from
the nearest later explicit token (if any) is appended. -/
def renderToken (m? : Option Str) (t : Str) : Str :=
  let c := jsTrim (asciiOnly t)
  match firstMarker c with
  | some _ => c
  | none =>
    match m? with
    | some m => c ++ m
    | none => c

/-- Specification written from the claim: every token lacking an explicit
am/pm marker inherits the meridiem of the nearest later token that states
one (tokens with no later explicit marker are left unchanged); order and
length are preserved.  `st` is the meridiem inherited from beyond the end
of the list (`none` at top level). -/
def meridiemSpecFrom (st : Option Str) : List Str → List Str
  | [] => []
  | t :: ts =>
    renderToken (match firstExplicit ts with | some m => some m | none => st) t ::
      meridiemSpecFrom st ts

/-- Top-level specification: nearest-later-marker meridiem inference. -/
def meridiemSpec (tokens : List Str) : List Str := meridiemSpecFrom none tokens

/-- The outgoing meridiem state after processing the (reversed) token list:
the nearest explicit marker in `ts`, falling back to the incoming `st`. -/
def stateOut (st : Option Str) (ts : List Str) : Option Str :=
  match firstExplicit ts with
  | some m => some m
  | none => st

/-! ## Movie metadata parsing (`_parseMovie`, source lines 354-389) -/

/-- The JavaScript value held by the `genre` variable: `false`
(absent-sentinel), a plain string (the no-runtime branch, line 384), or an
array of strings (a `split('/')` result, lines 367/378). -/
inductive GenreVal where
  | absent
  | text (t : Str)
  | list (l : List Str)
deriving DecidableEq, Repr

/-- The runtime/rating/genre triple computed by `_parseMovie` from the
`.info` text (`false` modelled as `none`/`.absent`). -/
structure MovieMeta where
  runtime : Option Str
  rating : Option Str
  genre : GenreVal
deriving DecidableEq, Repr

/-- `info[0].match(/(hr |min)/)` (source line 355). -/
def durTest (s : Str) : Bool := containsSub (str "hr ") s || containsSub (str "min") s

/-- `.match(/(IMDB|Trailer)/i)` (source lines 364/375). -/
def imdbTrailerTest (s : Str) : Bool :=
  containsCI (str "IMDB") s || containsCI (str "Trailer") s

/-- The `if (genre) genre = this._removeNonAsciiCharacters(genre)` step
(source lines 387-389): `false` is skipped; a string is stripped unless it
is empty (the empty string is falsy); an array (always truthy) is stripped
element-wise (source lines 532-542). -/
def genrePost : GenreVal → GenreVal
  | .absent => .absent
  | .text t => if t = [] then .text t else .text (asciiOnly t)
  | .list l => .list (l.map asciiOnly)

/-- The runtime/rating/genre block of `_parseMovie` (source lines
354-389), taking the already-split `info` token list.  A missing `info[1]`
is defaulted to `''` (line 357-359); a missing `info[2]` yields
`genre = false` (lines 363, 369-371). -/
def parseInfoTokens (info : List Str) : MovieMeta :=
  let i0 := info.headD []
  if durTest i0 then
    let runtime := asciiOnly (jsTrim i0)
    let i1 := info.getD 1 []
    if containsSub (str "Rated") i1 then
      let rating := asciiOnly (jsTrim (replaceFirst (str "Rated") [] i1))
      match info.get? 2 with
      | some i2 =>
        if imdbTrailerTest i2 then
          ⟨some runtime, some rating, genrePost .absent⟩
        else
          ⟨some runtime, some rating, genrePost (.list (splitChar '/' (jsTrim i2)))⟩
      | none => ⟨some runtime, some rating, genrePost .absent⟩
    else
      if imdbTrailerTest i1 then
        ⟨some runtime, none, genrePost .absent⟩
      else
        ⟨some runtime, none, genrePost (.list (splitChar '/' (jsTrim i1)))⟩
  else
    ⟨none, none, genrePost (.text (jsTrim i0))⟩

/-- Metadata parsing of a movie info string: split on `" - "` (source
lines 349/351) and classify the tokens. -/
def parseInfo (s : Str) : MovieMeta := parseInfoTokens (splitOnSub (str " - ") s)

/-- Specification written from the amended claim: token 0 is runtime iff
it matches the duration pattern; with runtime present, a token 1
containing `"Rated"` yields rating equal to token 1 with its first
`"Rated"` occurrence removed and the result trimmed, and the genre
candidate is token 2 (if present); otherwise rating is absent and token 1
is the genre candidate; a missing or IMDB/Trailer-matching candidate
yields absent genre, otherwise genre is the trimmed candidate split on
`"/"` (elements not re-trimmed, non-ASCII characters stripped); with
runtime absent, genre is the trimmed token 0 as a single string. -/
def genreFromCandidate (cand : Option Str) : GenreVal :=
  match cand with
  | none => .absent
  | some c =>
    if imdbTrailerTest c then .absent
    else .list ((splitChar '/' (jsTrim c)).map asciiOnly)

/-- See `genreFromCandidate`: the claim-side metadata classification. -/
def parseInfoAmended (s : Str) : MovieMeta :=
  let info := splitOnSub (str " - ") s
  let tok0 := info.headD []
  if durTest tok0 then
    let tok1 := info.getD 1 []
    if containsSub (str "Rated") tok1 then
      { runtime := some (asciiOnly (jsTrim tok0)),
        rating := some (asciiOnly (jsTrim (replaceFirst (str "Rated") [] tok1))),
        genre := genreFromCandidate (info.get? 2) }
    else
      { runtime := some (asciiOnly (jsTrim tok0)),
        rating := none,
        genre := genreFromCandidate (some tok1) }
  else
    { runtime := none, rating := none, genre := .text (asciiOnly (jsTrim tok0)) }

/-! ## URL and query-string model (Node `url.parse` / `querystring.parse`)

The embedding covers the link shapes the scraper actually traverses:
queries without percent-escapes and without duplicate keys (Node collects
duplicate keys into arrays; the modelled links carry each key once). -/

/-- The suffix after the first occurrence of `c`, or `none`. -/
def afterChar (c : Char) : Str → Option Str
  | [] => none
  | x :: xs => if x = c then some xs else afterChar c xs

/-- The prefix before the first occurrence of `c` (all of `s` if absent). -/
def upToChar (c : Char) (s : Str) : Str := s.takeWhile (fun x => x ≠ c)

/-- The part of Node's legacy `url.parse` result that the scraper reads:
the `query` field — the text after the first `?` of the hash-free part,
`null` (`none`) when the URL has no `?`. -/
structure UrlObj where
  query : Option Str
deriving DecidableEq, Repr

/-- Node `url.parse` (see `UrlObj`). -/
def urlParse (s : Str) : UrlObj :=
  { query := afterChar '?' (upToChar '#' s) }

/-- The JavaScript value handed to `querystring.parse`: a string, `null`,
or — as happens at source line 259 — the whole object returned by
`url.parse`. -/
inductive QsInput where
  | ofString (s : Str)
  | ofNull
  | ofUrlObject (u : UrlObj)
deriving DecidableEq, Repr

/-- One `key=value` segment: the key is the part before the first `=`,
the value everything after it (`''` when there is no `=`). -/
def qsPair (part : Str) : Str × Str :=
  match afterChar '=' part with
  | none => (part, [])
  | some v => (upToChar '=' part, v)

/-- Node `querystring.parse`: a non-string argument — `null`, or the url
OBJECT passed at source line 259 — yields the empty object; a string is
split on `&` into `key=value` pairs. -/
def qsParse : QsInput → List (Str × Str)
  | .ofString s => if s = [] then [] else (splitChar '&' s).map qsPair
  | .ofNull => []
  | .ofUrlObject _ => []

/-- Property access on the parsed query object (first occurrence;
`undefined` modelled as `none`). -/
def qsLookup (k : Str) (ps : List (Str × Str)) : Option Str :=
  (ps.find? (fun p => p.1 == k)).map Prod.snd

/-- The `if (typeof cloakedUrl === 'undefined') cloakedUrl = $('#left_nav
.section a').attr('href')` fallback (source lines 253-255 / 331-333). -/
def firstSome (a b : Option Str) : Option Str :=
  match a with
  | some u => some u
  | none => b

/-! ## Fragment model -/

/-- A node of the `#SynopsisSecond0` panel: an element child or a direct
text node.  `.children()` sees only the element nodes; `.text()` renders
both. -/
inductive DomNode where
  | elem (t : Str)
  | text (t : Str)
deriving DecidableEq, Repr

/-- `.text()` of a node list. -/
def nodesText (ns : List DomNode) : Str :=
  ns.foldr (fun n acc => (match n with | .elem t => t | .text t => t) ++ acc) []

/-- Remove the first element node of a list (helper for
`removeLastElem`). -/
def dropFirstElem : List DomNode → List DomNode
  | [] => []
  | DomNode.elem _ :: rest => rest
  | n :: rest => n :: dropFirstElem rest

/-- `movie.find('#SynopsisSecond0').children().last().remove()` (source
line 404): remove the LAST element child; a no-op when there is none. -/
def removeLastElem (ns : List DomNode) : List DomNode :=
  (dropFirstElem ns.reverse).reverse

/-- Document-level context read by the extractors: the sidebar fallback
link `$('#left_nav .section a').attr('href')`. -/
structure DocCtx where
  leftNavHref : Option Str
deriving DecidableEq, Repr

/-- A movie fragment: the texts and attributes `_parseMovie` reads.  The
`.info` elements are modelled by their markup restricted to text and
`<br>` tags (`infoHtmls`); the IMDb/Trailer anchors are modelled by their
resolved `href`s. -/
structure MovieFrag where
  nameAltText : Str
  nameText : Str
  nameLinkHref : Option Str
  headerNameLinkHref : Option Str
  infoHtmls : List Str
  descriptionText : Str
  synopsisNodes : List DomNode
  imdbHref : Option Str
  trailerHref : Option Str
  timesText : Str
  ticketAnchors : List (Str × Str)
deriving DecidableEq, Repr

/-- A theater fragment: the texts and attributes `_parseTheater` reads. -/
structure TheaterFrag where
  nameAltText : Str
  addressAltText : Str
  nameLinkHref : Option Str
  descNameText : Str
  descNameLinkHref : Option Str
  infoText : Str
  movieFrags : List MovieFrag
  timesText : Str
  ticketAnchors : List (Str × Str)
deriving DecidableEq, Repr

/-- Theater id resolution of `_parseTheater` (source lines 245-264),
including the slip at line 259: `qs.parse(url.parse(cloakedUrl))` hands
the whole url OBJECT to `querystring.parse` (instead of its `.query`
string, as the movie path at line 335 does), and Node's
`querystring.parse` returns the empty object for any non-string
argument — so `.tid` is always `undefined` and the id stays `false`. -/
def theaterIdResolve (doc : DocCtx) (frag : TheaterFrag) (alternate : Bool) : Option Str :=
  match firstSome (if alternate then frag.nameLinkHref else frag.descNameLinkHref)
      doc.leftNavHref with
  | none => none
  | some u => qsLookup (str "tid") (qsParse (QsInput.ofUrlObject (urlParse u)))

/-- Movie id resolution of `_parseMovie` (source lines 323-336):
`qs.parse(url.parse(cloakedUrl).query).mid`.  When neither the fragment
nor the sidebar provides a link, `url.parse(undefined)` throws a
`TypeError` (modelled as `.error`). -/
def movieIdResolve (doc : DocCtx) (frag : MovieFrag) (alternate : Bool) :
    Except Unit (Option Str) :=
  match firstSome (if alternate then frag.headerNameLinkHref else frag.nameLinkHref)
      doc.leftNavHref with
  | none => .error ()
  | some u =>
    .ok (qsLookup (str "mid")
      (qsParse (match (urlParse u).query with
        | some q => QsInput.ofString q
        | none => QsInput.ofNull)))

/-! ## Full movie extraction (`_parseMovie`, source lines 310-436) -/

/-- `.text()` of an `.info` element whose markup is text plus `<br>`
tags: a `<br>` renders as nothing. -/
def textOfHtml (h : Str) : Str := removeAll (str "<br>") h

/-- Concatenation of the texts of all matched elements (cheerio `.text()`
over a multi-element selection). -/
def concatAll (l : List Str) : Str := l.foldr (fun a b => a ++ b) []

/-- JavaScript truthiness of a string-or-undefined value. -/
def jsTruthy (o : Option Str) : Bool :=
  match o with
  | some s => !s.isEmpty
  | none => false

/-- JavaScript object property assignment `obj[k] = v`: overwrite an
existing key in place, else append. -/
def jsAssign {α : Type} : List (Str × α) → Str → α → List (Str × α)
  | [], k, v => [(k, v)]
  | p :: rest, k, v =>
    if p.1 == k then (p.1, v) :: rest else p :: jsAssign rest k v

/-- The standardized movie record built by `_parseMovie` (source lines
417-433).  `false`/`undefined` field values are modelled as `none`; the
`director`/`cast`/`description` keys exist only on the
single-movie-lookup path. -/
structure MovieRec where
  id : Option Str
  name : Str
  runtime : Option Str
  rating : Option Str
  genre : GenreVal
  imdb : Option Str
  trailer : Option Str
  showtimes : List Str
  showtime_tickets : Option (List (Str × Option Str))
  director : Option Str
  cast : Option (List Str)
  description : Option Str
deriving DecidableEq, Repr

/-- The cloaked-link resolution shared by `_parseImdb`/`_parseTrailer`
(source lines 501-524): rebase the href onto `https://google.com`, then
read its `q` query parameter; `false` when there is no link. -/
def parseLinkQ (href : Option Str) : Option Str :=
  match href with
  | none => none
  | some h =>
    qsLookup (str "q")
      (qsParse (match (urlParse ((str "https://google.com") ++ h)).query with
        | some q => QsInput.ofString q
        | none => QsInput.ofNull))

/-- `_parseImdb` (source lines 516-524). -/
def parseImdb (frag : MovieFrag) : Option Str := parseLinkQ frag.imdbHref

/-- `_parseTrailer` (source lines 501-509). -/
def parseTrailer (frag : MovieFrag) : Option Str := parseLinkQ frag.trailerHref

/-- The ticket anchors mapped to `(time text, resolved ticket url)` pairs
(source lines 476-483): `url.parse(href, true).query.q`. -/
def ticketItems (anchors : List (Str × Str)) : List (Str × Option Str) :=
  anchors.map (fun a =>
    (a.1, qsLookup (str "q")
      (qsParse (match (urlParse a.2).query with
        | some q => QsInput.ofString q
        | none => QsInput.ofNull))))

/-- One step of the ticket-mode reverse pass (source lines 486-490): run
`getTime`, assign the resolved time into the ticket map, emit the time. -/
def ticketStep (st : Option Str × List (Str × Option Str)) (item : Str × Option Str) :
    (Option Str × List (Str × Option Str)) × Str :=
  ((((getTime st.1 item.1).1), jsAssign st.2 (getTime st.1 item.1).2 item.2),
    (getTime st.1 item.1).2)

/-- `_parseShowtimes` on a fragment (source lines 446-494): without
ticket anchors the `.times` text is split on a space and fed through the
reverse meridiem pass (`parseShowtimesTimes`); with anchors the same pass
also builds the time → ticket-url map. -/
def parseShowtimesFrag (timesText : Str) (anchors : List (Str × Str)) :
    List Str × Option (List (Str × Option Str)) :=
  if anchors.isEmpty then
    (parseShowtimesTimes (splitChar ' ' timesText), none)
  else
    let out := mapWithState ticketStep (none, []) (ticketItems anchors).reverse
    (out.2.reverse, some out.1.2)

/-- The `Director:`/`Cast:` token scan (source lines 393-400); a token
matching `Director:` is not also tested for `Cast:` (else-if). -/
def scanFluff (info : List Str) : Option Str × Option (List Str) :=
  info.foldl (fun acc tok =>
    if containsSub (str "Director:") tok then
      (some (jsTrim (replaceFirst (str "Director:") [] tok)), acc.2)
    else if containsSub (str "Cast:") tok then
      (acc.1, some (splitOnSub (str ", ") (jsTrim (replaceFirst (str "Cast:") [] tok))))
    else acc) (none, none)

/-- `_parseMovie` (source lines 310-436).  Returns the record (`none` for
the empty-name soft failure, line 319-321) TOGETHER with the possibly
mutated fragment: in movie-first mode the first `<br>` of the last
`.info` element is rewritten to `" - "` in the DOM (lines 345-347), and on
the single-movie path the last element child of `#SynopsisSecond0` is
removed (line 404).  `.error` models the `TypeError` thrown by
`url.parse(undefined)` when no link can provide an id, or by
`null.replace` when movie-first mode finds no `.info` element. -/
def parseMovie (doc : DocCtx) (frag : MovieFrag) (alternate : Bool) (suppliedId : Option Str) :
    Except Unit (Option MovieRec × MovieFrag) :=
  let name := if alternate then frag.nameAltText else frag.nameText
  if name = [] then .ok (none, frag)
  else
    match (match suppliedId with
           | some m => Except.ok (some m)
           | none => movieIdResolve doc frag alternate) with
    | .error e => .error e
    | .ok movieId =>
      match (if alternate then
               match frag.infoHtmls.getLast? with
               | none => Except.error ()
               | some h =>
                 let h2 := replaceFirst (str "<br>") (str " - ") h
                 Except.ok (splitOnSub (str " - ") (textOfHtml h2),
                   { frag with infoHtmls := frag.infoHtmls.dropLast ++ [h2] })
             else
               Except.ok (splitOnSub (str " - ") (concatAll (frag.infoHtmls.map textOfHtml)),
                 frag) : Except Unit (List Str × MovieFrag)) with
      | .error e => .error e
      | .ok infoPair =>
        let info := infoPair.1
        let frag2 := infoPair.2
        let meta := parseInfoTokens info
        let fluff := alternate && jsTruthy movieId
        let frag3 := if fluff then
            { frag2 with synopsisNodes := removeLastElem frag2.synopsisNodes }
          else frag2
        let description := if fluff then
            some (jsTrim (frag.descriptionText ++ nodesText (removeLastElem frag2.synopsisNodes)))
          else none
        let sts := if alternate then (([] : List Str), (none : Option (List (Str × Option Str))))
          else parseShowtimesFrag frag.timesText frag.ticketAnchors
        .ok (some {
          id := movieId
          name := name
          runtime := meta.runtime
          rating := meta.rating
          genre := meta.genre
          imdb := parseImdb frag
          trailer := parseTrailer frag
          showtimes := sts.1
          showtime_tickets := sts.2
          director := if fluff then (scanFluff info).1 else none
          cast := if fluff then (scanFluff info).2 else none
          description := description }, frag3)

/-- The concrete movie-first fragment of the C5 counterexample: a movie
with a two-part synopsis panel (remaining text plus the
`show more`/`show less` control). -/
def c5Frag : MovieFrag :=
  { nameAltText := str "Film"
    nameText := str ""
    nameLinkHref := none
    headerNameLinkHref := none
    infoHtmls := [str "Drama"]
    descriptionText := str "Intro. "
    synopsisNodes := [DomNode.elem (str "More synopsis text."), DomNode.elem (str "Show less")]
    imdbHref := none
    trailerHref := none
    timesText := str ""
    ticketAnchors := [] }

/-- Success projection used to state concrete facts about `Except`
results. -/
def exOk {α : Type} : Except Unit α → Option α
  | .ok a => some a
  | .error _ => none

/-! ## Theater extraction (`_parseTheater`, source lines 240-297) -/

/-- The standardized theater record.  The theater-first shape carries
`phoneNumber` and `movies`; the movie-first shape carries `showtimes`
(and possibly `showtime_tickets`) instead — absent keys are `none`. -/
structure TheaterRec where
  id : Option Str
  name : Str
  address : Str
  phoneNumber : Option Str
  movies : Option (List MovieRec)
  showtimes : Option (List Str)
  showtime_tickets : Option (List (Str × Option Str))
deriving DecidableEq, Repr

/-- The nested-movie loop of `_parseTheater` (source lines 282-288): parse
each `.showtimes .movie` fragment in order, pushing only the truthy
(named) records.  The theater-first `_parseMovie` never mutates the
fragment, so only the records are collected. -/
def parseMoviesList (doc : DocCtx) : List MovieFrag → Except Unit (List MovieRec)
  | [] => .ok []
  | f :: fs =>
    match parseMovie doc f false none with
    | .error e => .error e
    | .ok out =>
      match parseMoviesList doc fs with
      | .error e => .error e
      | .ok rest =>
        match out.1 with
        | some r => .ok (r :: rest)
        | none => .ok rest

/-- `_parseTheater` (source lines 240-297). -/
def parseTheater (doc : DocCtx) (frag : TheaterFrag) (alternate : Bool)
    (suppliedId : Option Str) : Except Unit TheaterRec :=
  let tid := match suppliedId with
    | some t => some t
    | none => theaterIdResolve doc frag alternate
  if alternate then
    let sts := parseShowtimesFrag frag.timesText frag.ticketAnchors
    .ok { id := tid, name := frag.nameAltText, address := frag.addressAltText,
          phoneNumber := none, movies := none,
          showtimes := some sts.1, showtime_tickets := sts.2 }
  else
    match parseMoviesList doc frag.movieFrags with
    | .error e => .error e
    | .ok movies =>
      let info := splitOnSub (str " - ") frag.infoText
      .ok { id := tid, name := frag.descNameText,
            address := if info.headD [] ≠ [] then jsTrim (info.headD []) else [],
            phoneNumber := some (match info.get? 1 with
              | some p => if p ≠ [] then jsTrim p else []
              | none => []),
            movies := some movies, showtimes := none, showtime_tickets := none }

/-! ## Page handlers and pagination (`getTheaters`/`getMovies`,
source lines 38-88 / 128-192, and `_request`, lines 551-586) -/

/-- A JavaScript value passed as the callback's first argument. -/
inductive JsVal where
  | null
  | str (s : Str)
  | errObj (e : Str)
deriving DecidableEq, Repr

/-- One parsed result page of a listing call: the per-fragment extraction
results (`recs`, empty iff the page has no fragments), the page's own
`#results` text, the title/breadcrumb fields (the page is assumed
well-formed — the malformed-page hard failure is out of the claims'
scope), and whether a "Next" pagination control is present. -/
structure ListPage (α : Type) where
  recs : List α
  resultsText : Str
  location : Str
  day : Str
  hasNext : Bool
deriving DecidableEq, Repr

/-- The structured success payload (`{location, date, data}`). -/
structure ListResult (α : Type) where
  location : Str
  date : Str
  data : List α
deriving DecidableEq, Repr

/-- The observable outcome of processing one page: a callback invocation
`cb(arg0[, result])`, or a recursive fetch of the next page with the
accumulated records. -/
inductive PageStep (α : Type) where
  | cb (arg0 : JsVal) (res : Option (ListResult α))
  | next (page : Nat) (acc : List α)
deriving DecidableEq, Repr

/-- The per-page body shared by `getTheaters` (lines 57-87) and
`getMovies` (lines 147-191): empty-fragment pages deliver the page's own
`#results` text through the callback; otherwise the records passing
`keep` (non-empty name / truthy parse) are appended and pagination either
stops (`cb(null, {...})`) or continues (`page + 1`). -/
def onPage {α : Type} (keep : α → Bool) (page limit : Nat) (acc : List α)
    (d : ListPage α) : PageStep α :=
  if d.recs.isEmpty then .cb (.str d.resultsText) none
  else
    let acc2 := acc ++ d.recs.filter keep
    if d.hasNext = false ∨ page = limit then
      .cb .null (some ⟨d.location, d.day, acc2⟩)
    else .next (page + 1) acc2

/-- Drive the shared page body over the successive pages the server would
return.  Result: (number of fetches performed, final step, final value of
the mutable `this.page` field).  The `[]` case is a modelling artifact
(the next fetch would leave the supplied page list) and is unreachable
under the theorems' hypotheses. -/
def paginate {α : Type} (keep : α → Bool) (limit : Nat) :
    List (ListPage α) → Nat → List α → Nat × PageStep α × Nat
  | [], page, acc => (0, .next page acc, page)
  | d :: rest, page, acc =>
    if d.recs.isEmpty then (1, .cb (.str d.resultsText) none, page)
    else
      if d.hasNext = false ∨ page = limit then
        (1, .cb .null (some ⟨d.location, d.day, acc ++ d.recs.filter keep⟩), page)
      else
        ((paginate keep limit rest (page + 1) (acc ++ d.recs.filter keep)).1 + 1,
         (paginate keep limit rest (page + 1) (acc ++ d.recs.filter keep)).2.1,
         (paginate keep limit rest (page + 1) (acc ++ d.recs.filter keep)).2.2)

/-- "Each page except the last shows a Next control." -/
def chained {α : Type} : List (ListPage α) → Bool
  | [] => true
  | [d] => !d.hasNext
  | d :: rest => d.hasNext && chained rest

/-- The records that survive the `keep` filter, over all pages in order. -/
def flatFiltered {α : Type} (keep : α → Bool) (pages : List (ListPage α)) : List α :=
  pages.foldr (fun d acc => d.recs.filter keep ++ acc) []

/-- The last page of a run (with an explicit fallback). -/
def lastPageD {α : Type} (dflt : ListPage α) : List (ListPage α) → ListPage α
  | [] => dflt
  | [d] => d
  | _ :: rest => lastPageD dflt rest

/-- The getTheaters skip predicate (source lines 68-70). -/
def theaterKeep (t : TheaterRec) : Bool := !t.name.isEmpty

/-- A concrete non-empty theater record for the pagination witness. -/
def w3Rec : TheaterRec :=
  { id := none, name := str "Empire", address := str "1 Main St",
    phoneNumber := some [], movies := some [], showtimes := none, showtime_tickets := none }

/-- First witness page: one record, "Next" control present. -/
def w3PageA : ListPage TheaterRec :=
  { recs := [w3Rec], resultsText := [], location := str "NYC", day := str "Today",
    hasNext := true }

/-- Second (last) witness page: one kept and one empty-name record, no
"Next" control. -/
def w3PageB : ListPage TheaterRec :=
  { recs := [w3Rec, { w3Rec with name := [] }], resultsText := [],
    location := str "NYC, NY", day := str "Today", hasNext := false }

/-! ## The four caller paths of the empty-name soft failure (C7) -/

/-- The `getTheaters` per-page extraction loop (source lines 66-73):
parse each `.theater` fragment; a record whose name is empty is dropped
(`return true` continues the loop) and the siblings are still
processed. -/
def extractTheatersList (doc : DocCtx) : List TheaterFrag → Except Unit (List TheaterRec)
  | [] => .ok []
  | f :: fs =>
    match parseTheater doc f false none with
    | .error e => .error e
    | .ok t =>
      match extractTheatersList doc fs with
      | .error e => .error e
      | .ok rest => if t.name = [] then .ok rest else .ok (t :: rest)

/-- The nested theater loop of `getMovies`/`getMovie` (source lines
167-169 / 216-218): every nested theater is parsed in movie-first mode
and pushed (no name check on theaters here). -/
def parseTheatersAlt (doc : DocCtx) : List TheaterFrag → Except Unit (List TheaterRec)
  | [] => .ok []
  | f :: fs =>
    match parseTheater doc f true none with
    | .error e => .error e
    | .ok t =>
      match parseTheatersAlt doc fs with
      | .error e => .error e
      | .ok rest => .ok (t :: rest)

/-- One `.movie` entry of a movie-first listing page: the movie fragment,
its nested `.showtimes .theater` fragments and whether a
`.showtimes p.show_more` control is present. -/
structure MovieListItem where
  frag : MovieFrag
  theaterFrags : List TheaterFrag
  showMore : Bool
deriving DecidableEq, Repr

/-- The movie record delivered by `getMovies`/`getMovie`: `showtimes` has
been `delete`d, `theaters` added; `more_theaters` is set only by
`getMovies` (modelled `false` when the key is absent). -/
structure MovieFull where
  id : Option Str
  name : Str
  runtime : Option Str
  rating : Option Str
  genre : GenreVal
  imdb : Option Str
  trailer : Option Str
  showtime_tickets : Option (List (Str × Option Str))
  director : Option Str
  cast : Option (List Str)
  description : Option Str
  theaters : List TheaterRec
  more_theaters : Bool
deriving DecidableEq, Repr

/-- `delete movieData.showtimes; movieData.theaters = ...` (source lines
164-173 / 213-218). -/
def toFull (m : MovieRec) (theaters : List TheaterRec) (more : Bool) : MovieFull :=
  { id := m.id, name := m.name, runtime := m.runtime, rating := m.rating,
    genre := m.genre, imdb := m.imdb, trailer := m.trailer,
    showtime_tickets := m.showtime_tickets, director := m.director, cast := m.cast,
    description := m.description, theaters := theaters, more_theaters := more }

/-- The `getMovies` per-page extraction loop (source lines 156-176): a
falsy parse result (empty name) is skipped (`return` continues the
loop); otherwise the nested theaters are parsed and the record pushed. -/
def extractMoviesList (doc : DocCtx) : List MovieListItem → Except Unit (List MovieFull)
  | [] => .ok []
  | it :: its =>
    match parseMovie doc it.frag true none with
    | .error e => .error e
    | .ok out =>
      match out.1 with
      | none => extractMoviesList doc its
      | some md =>
        match parseTheatersAlt doc it.theaterFrags with
        | .error e => .error e
        | .ok ths =>
          match extractMoviesList doc its with
          | .error e => .error e
          | .ok rest => .ok (toFull md ths it.showMore :: rest)

/-- Errors observable from the `getMovie` handler. -/
inductive JsErr where
  | typeErr
  | linkErr
deriving DecidableEq, Repr

/-- A parsed single-movie page (`getMovie`, source lines 201-229). -/
structure MoviePageDoc where
  ctx : DocCtx
  movieFrag : MovieFrag
  theaterFrags : List TheaterFrag
  location : Str
  day : Str
deriving DecidableEq, Repr

/-- The structured success payload of `getMovie`. -/
structure MovieResult where
  location : Str
  date : Str
  data : MovieFull
deriving DecidableEq, Repr

/-- The `getMovie` handler (source lines 201-229).  This file is in
strict mode (`'use strict'`, line 1): when `_parseMovie` returns `false`
(empty name), `delete movieData.showtimes` on the primitive succeeds but
the following `movieData.theaters = []` assignment on the primitive
`false` throws a `TypeError` — modelled as `.error .typeErr`; no name
check guards this path (unlike lines 68/160/285). -/
def getMovieHandler (doc : MoviePageDoc) (movieId : Str) : Except JsErr MovieResult :=
  match parseMovie doc.ctx doc.movieFrag true (some movieId) with
  | .error _ => .error .linkErr
  | .ok out =>
    match out.1 with
    | none => .error .typeErr
    | some md =>
      match parseTheatersAlt doc.ctx doc.theaterFrags with
      | .error _ => .error .linkErr
      | .ok ths =>
        .ok { location := doc.location, date := doc.day, data := toFull md ths false }

/-- The empty-name movie fragment used by the C7 counterexample and
witness (both its theater-first and its movie-first name are empty). -/
def c7Frag : MovieFrag :=
  { nameAltText := [], nameText := [], nameLinkHref := none,
    headerNameLinkHref := none, infoHtmls := [], descriptionText := [],
    synopsisNodes := [], imdbHref := none, trailerHref := none, timesText := [],
    ticketAnchors := [] }

/-- A single-movie page whose `.movie` selection has an empty name. -/
def c7Doc : MoviePageDoc :=
  { ctx := ⟨none⟩, movieFrag := c7Frag, theaterFrags := [], location := str "NYC",
    day := str "Today" }

/-- An all-empty theater fragment (its parsed record has an empty name). -/
def w7TFrag : TheaterFrag :=
  { nameAltText := [], addressAltText := [], nameLinkHref := none,
    descNameText := [], descNameLinkHref := none, infoText := [],
    movieFrags := [], timesText := [], ticketAnchors := [] }

/-- The record `_parseTheater` produces for `w7TFrag` in theater-first
mode. -/
def w7TRec : TheaterRec :=
  { id := none, name := [], address := [], phoneNumber := some [],
    movies := some [], showtimes := none, showtime_tickets := none }

/-! ## Transport errors and the empty-result success (C8) -/

/-- The generic message of `_request` (source line 576). -/
def unknownErrorMsg : Str :=
  str "Unknown error occured while querying theater data from Google Movies."

/-- `_request`'s response dispatch (source lines 573-585): a truthy
`error` or a non-200 status invokes the callback with the error (the
error object verbatim, or the generic string when `error === null`);
otherwise the page handler runs on the body. -/
def requestStep {α β : Type} (error : Option Str) (status : Nat)
    (handler : α → PageStep β) (body : α) : PageStep β :=
  if error.isSome ∨ status ≠ 200 then
    match error with
    | none => .cb (.str unknownErrorMsg) none
    | some e => .cb (.errObj e) none
  else handler body

/-- A concrete two-record page for the C8 witness. -/
def c8Page : ListPage TheaterRec :=
  { recs := [w3Rec], resultsText := str "No showtimes were found on: 10/12/2026",
    location := str "NYC", day := str "Today", hasNext := false }

/-! ## Turkish re-decoding (C9) -/

/-- One byte of ISO-8859-9 ("latin5"): Latin-1 with the six Turkish
letter replacements at 0xD0/0xDD/0xDE/0xF0/0xFD/0xFE. -/
def latin5Char (b : Nat) : Char :=
  if b = 0xd0 then 'Ğ'
  else if b = 0xdd then 'İ'
  else if b = 0xde then 'Ş'
  else if b = 0xf0 then 'ğ'
  else if b = 0xfd then 'ı'
  else if b = 0xfe then 'ş'
  else Char.ofNat (b % 256)

/-- `iconv.decode(response, 'latin5')` on the binary response bytes. -/
def latin5Decode (raw : List Nat) : Str := raw.map latin5Char

/-- The `encoding: 'binary'` body as delivered by the request library:
each byte becomes the Latin-1 character of the same code. -/
def binaryDecode (raw : List Nat) : Str := raw.map (fun b => Char.ofNat (b % 256))

/-- The text handed to `cheerio.load` by `getTheaters` (source lines
52-57): when the configured language is `"tr"` the raw bytes are
re-decoded from latin5 first. -/
def getTheatersLoadInput (lang : Str) (raw : List Nat) : Str :=
  if lang = str "tr" then latin5Decode raw else binaryDecode raw

/-- The text handed to `cheerio.load` by `getMovies` (source lines
142-147): same latin5 pre-step as `getTheaters`. -/
def getMoviesLoadInput (lang : Str) (raw : List Nat) : Str :=
  if lang = str "tr" then latin5Decode raw else binaryDecode raw

/-- The text handed to `cheerio.load` by `getTheater` (source lines
97-100): NO re-decoding happens on this path. -/
def getTheaterLoadInput (_lang : Str) (raw : List Nat) : Str := binaryDecode raw

/-- The text handed to `cheerio.load` by `getMovie` (source lines
201-204): NO re-decoding happens on this path. -/
def getMovieLoadInput (_lang : Str) (raw : List Nat) : Str := binaryDecode raw

/-! ## Per-instance mutable pagination state (C10) -/

/-- The long-lived configured object: its static configuration
(`pageLimit`) and the mutable `this.page` field, which is `undefined`
(`none`) until a listing call has run. -/
structure Inst where
  pageLimit : Nat
  page : Option Nat
deriving DecidableEq, Repr

/-- The `start` offset `_request` sends (source line 556):
`(this.page - 1) * 10`; `none` models the `NaN` arising from
`undefined - 1` on a fresh instance. -/
def startOffset (inst : Inst) : Option Nat :=
  inst.page.map (fun p => (p - 1) * 10)

/-- A full `getTheaters`/`getMovies` run on an instance: the page counter
is reset to 1 on entry (source lines 39/129) and left at the last fetched
page when the run completes. -/
def runListCall {α : Type} (keep : α → Bool) (inst : Inst)
    (pages : List (ListPage α)) : Inst × (Nat × PageStep α × Nat) :=
  ((⟨inst.pageLimit, some (paginate keep inst.pageLimit pages 1 []).2.2⟩ : Inst),
   paginate keep inst.pageLimit pages 1 [])

/-- The single-record chained pages of the C10 counterexample. -/
def c10Page1 : ListPage TheaterRec :=
  { recs := [w3Rec], resultsText := [], location := str "NYC", day := str "Today",
    hasNext := true }

/-- Final page of the two-page run (also the sole page of the one-page
run). -/
def c10Page2 : ListPage TheaterRec :=
  { recs := [w3Rec], resultsText := [], location := str "NYC", day := str "Today",
    hasNext := false }

/-! ## Theorems -/

example : splitOnSub (str " - ") (str "1 hr 45 min - Rated PG-13 - Action/Adventure") =
    [str "1 hr 45 min", str "Rated PG-13", str "Action/Adventure"] := by decide

example : splitOnSub (str " - ") (str "") = [str ""] := by decide

example : replaceFirst (str "Rated") [] (str "Rated PG-13") = str " PG-13" := by decide

example : jsTrim (str "  x y  ") = str "x y" := by decide

example : parseShowtimesTimes
    [str "10:00", str "11:20am", str "1:00", str "2:20", str "6:50pm"] =
    [str "10:00am", str "11:20am", str "1:00pm", str "2:20pm", str "6:50pm"] := by decide

theorem getTime_snd (m? : Option Str) (t : Str) : (getTime m? t).2 = renderToken m? t := by
  simp only [getTime, renderToken]
  cases firstMarker (jsTrim (asciiOnly t)) <;> cases m? <;> rfl

theorem getTime_fst (m? : Option Str) (t : Str) :
    (getTime m? t).1 =
      match firstMarker (jsTrim (asciiOnly t)) with
      | some m => some m
      | none => m? := by
  simp only [getTime]
  cases firstMarker (jsTrim (asciiOnly t)) <;> cases m? <;> rfl

theorem mapWithState_append {σ α β : Type} (f : σ → α → σ × β) (st : σ)
    (xs ys : List α) :
    mapWithState f st (xs ++ ys) =
      ((mapWithState f (mapWithState f st xs).1 ys).1,
       (mapWithState f st xs).2 ++ (mapWithState f (mapWithState f st xs).1 ys).2) := by
  induction xs generalizing st with
  | nil => simp [mapWithState]
  | cons a as ih => simp [mapWithState, ih]

theorem mapWithState_getTime_reverse (ts : List Str) (st : Option Str) :
    mapWithState getTime st ts.reverse =
      (stateOut st ts, (meridiemSpecFrom st ts).reverse) := by
  induction ts generalizing st with
  | nil => simp [mapWithState, stateOut, firstExplicit, meridiemSpecFrom]
  | cons t ts ih =>
    have hrev : (t :: ts).reverse = ts.reverse ++ [t] := by simp
    rw [hrev, mapWithState_append, ih]
    simp only [mapWithState, getTime_fst, getTime_snd]
    rw [Prod.mk.injEq]
    constructor
    · simp only [stateOut, firstExplicit]
      cases firstMarker (jsTrim (asciiOnly t)) <;> rfl
    · show (meridiemSpecFrom st ts).reverse ++ [renderToken (stateOut st ts) t] =
        (meridiemSpecFrom st (t :: ts)).reverse
      simp [meridiemSpecFrom, stateOut]

theorem parseShowtimesTimes_eq_spec (tokens : List Str) :
    parseShowtimesTimes tokens = meridiemSpec tokens := by
  unfold parseShowtimesTimes meridiemSpec
  rw [mapWithState_getTime_reverse]
  simp

theorem meridiemSpecFrom_length (st : Option Str) (ts : List Str) :
    (meridiemSpecFrom st ts).length = ts.length := by
  induction ts with
  | nil => rfl
  | cons t ts ih => simp [meridiemSpecFrom, ih]

/-- C1: `_parseShowtimes` preserves the chronological order of its time
tokens (the output is the positional image of the input, of equal length);
every token lacking an explicit am/pm marker, after non-ASCII stripping
and trimming, carries the meridiem of the nearest later token that states
one, while tokens encountered in the reverse pass before any explicit
marker (those with no later explicit marker) are left unappended — as
captured by the nearest-later-marker specification `meridiemSpec`; and the
fixture `["10:00","11:20am","1:00","2:20","6:50pm"]` yields
`["10:00am","11:20am","1:00pm","2:20pm","6:50pm"]`. -/
theorem c1_parseShowtimes_meridiem :
    (∀ tokens : List Str, parseShowtimesTimes tokens = meridiemSpec tokens) ∧
    (∀ tokens : List Str, (parseShowtimesTimes tokens).length = tokens.length) ∧
    parseShowtimesTimes
        [str "10:00", str "11:20am", str "1:00", str "2:20", str "6:50pm"] =
      [str "10:00am", str "11:20am", str "1:00pm", str "2:20pm", str "6:50pm"] := by
  refine ⟨parseShowtimesTimes_eq_spec, fun tokens => ?_, by decide⟩
  rw [parseShowtimesTimes_eq_spec]
  exact meridiemSpecFrom_length none tokens

theorem genrePost_text (t : Str) :
    genrePost (GenreVal.text t) = GenreVal.text (asciiOnly t) := by
  by_cases h : t = []
  · subst h; rfl
  · simp [genrePost, h]

theorem parseInfo_eq_amended (s : Str) : parseInfo s = parseInfoAmended s := by
  simp only [parseInfo, parseInfoTokens, parseInfoAmended, genreFromCandidate, genrePost]
  split
  · split
    · cases (splitOnSub (str " - ") s).get? 2 with
      | none => rfl
      | some c => by_cases h3 : imdbTrailerTest c = true <;> simp [h3]
    · split <;> rfl
  · by_cases h : jsTrim ((splitOnSub (str " - ") s).headD []) = []
    · rw [h]; rfl
    · rw [if_neg h]

theorem splitGo_ne_nil (sep : Str) (s acc : Str) : splitGo sep s acc ≠ [] := by
  induction s generalizing acc with
  | nil => simp [splitGo]
  | cons c cs ih =>
    simp only [splitGo]
    split
    · simp
    · exact ih _

theorem splitOnSub_ne_nil (sep s : Str) : splitOnSub sep s ≠ [] :=
  splitGo_ne_nil sep s []

/-- C2 counterexample: the claim classifies token 1 by the `"Rated "`
prefix, but the code tests `info[1].match(/Rated/)`, a substring match.
On the info string `"2 hr 5 min - xRated G"`, token 1 `"xRated G"` does
not carry the `"Rated "` prefix — the claim then predicts rating absent
and genre `["xRated G"]` — yet the code produces rating `"x G"` (first
`"Rated"` occurrence removed, trimmed) and absent genre. -/
theorem c2_counterexample :
    (parseInfo (str "2 hr 5 min - xRated G")).rating = some (str "x G") ∧
    (parseInfo (str "2 hr 5 min - xRated G")).genre = GenreVal.absent ∧
    leadsWith (str "Rated ") (str "xRated G") = false := by decide

/-- C2 (amended): for every movie info string split on `" - "`: if token 0
matches the duration pattern it becomes runtime, otherwise runtime and
rating are absent and token 0 is the genre text directly; with runtime
present, a token 1 containing `"Rated"` (anywhere, not only as a prefix)
yields rating equal to token 1 with its first `"Rated"` occurrence removed
and the result trimmed, and the next token is the genre candidate,
otherwise rating is absent and token 1 is the genre candidate; a missing
or IMDB/Trailer-matching candidate yields absent genre, otherwise genre is
the trimmed candidate split on `"/"`.  The three fixtures hold as stated
in the claim. -/
theorem c2_amended_thm :
    (∀ s : Str, parseInfo s = parseInfoAmended s) ∧
    parseInfo (str "1 hr 45 min - Rated PG-13 - Action/Adventure") =
      ⟨some (str "1 hr 45 min"), some (str "PG-13"),
       GenreVal.list [str "Action", str "Adventure"]⟩ ∧
    parseInfo (str "1 hr 45 min - Trailer") =
      ⟨some (str "1 hr 45 min"), none, GenreVal.absent⟩ ∧
    parseInfo (str "Documentary") =
      ⟨none, none, GenreVal.text (str "Documentary")⟩ :=
  ⟨parseInfo_eq_amended, by decide, by decide, by decide⟩

/-- C6 counterexample: when runtime is absent the code does NOT split
token 0 on `"/"` — it keeps it as a single string (source line 384).  On
`"Sci-Fi/Horror"` the claim predicts the list `["Sci-Fi","Horror"]`, but
the genre field is the plain string `"Sci-Fi/Horror"` (neither the
absent-sentinel nor a list). -/
theorem c6_counterexample :
    (parseInfo (str "Sci-Fi/Horror")).genre = GenreVal.text (str "Sci-Fi/Horror") ∧
    (parseInfo (str "Sci-Fi/Horror")).genre ≠ GenreVal.absent ∧
    (parseInfo (str "Sci-Fi/Horror")).genre ≠
      GenreVal.list [str "Sci-Fi", str "Horror"] := by decide

/-- C6 (amended): the genre field of every extracted movie record is
either the absent-sentinel, or — when runtime is present — a non-empty
list obtained by trimming the genre candidate, splitting it on `"/"` and
stripping non-ASCII characters from each element (the elements are not
individually re-trimmed), or — when runtime is absent — a single string:
token 0 trimmed and non-ASCII-stripped, not split on `"/"`. -/
theorem c6_amended_thm (s : Str) :
    (parseInfo s).genre = GenreVal.absent ∨
    (∃ cand : Str,
      (parseInfo s).genre = GenreVal.list ((splitChar '/' (jsTrim cand)).map asciiOnly) ∧
      (splitChar '/' (jsTrim cand)).map asciiOnly ≠ []) ∨
    (parseInfo s).genre =
      GenreVal.text (asciiOnly (jsTrim ((splitOnSub (str " - ") s).headD []))) := by
  rw [parseInfo_eq_amended]
  simp only [parseInfoAmended, genreFromCandidate]
  split
  · split
    · cases h2 : (splitOnSub (str " - ") s).get? 2 with
      | none => left; rfl
      | some c =>
        by_cases h3 : imdbTrailerTest c = true
        · left
          show (if imdbTrailerTest c = true then GenreVal.absent
                else GenreVal.list ((splitChar '/' (jsTrim c)).map asciiOnly)) =
            GenreVal.absent
          rw [if_pos h3]
        · right; left
          refine ⟨c, ?_, ?_⟩
          · show (if imdbTrailerTest c = true then GenreVal.absent
                  else GenreVal.list ((splitChar '/' (jsTrim c)).map asciiOnly)) =
              GenreVal.list ((splitChar '/' (jsTrim c)).map asciiOnly)
            rw [if_neg h3]
          intro hmap
          exact splitOnSub_ne_nil ['/'] (jsTrim c) (by simpa using hmap)
    · by_cases h3 : imdbTrailerTest ((splitOnSub (str " - ") s).getD 1 []) = true
      · left; rw [if_pos h3]
      · right; left
        refine ⟨(splitOnSub (str " - ") s).getD 1 [], by rw [if_neg h3], ?_⟩
        intro hmap
        exact splitOnSub_ne_nil ['/'] _ (by simpa using hmap)
  · right; right; rfl

/-- C4 (code bug): the claim — and the movie-path analogue at source line
335 — expect the `tid` query parameter of the detail link to become the
theater id, but line 259 passes the url OBJECT to `querystring.parse`,
which returns the empty object for non-string input: the resolved theater
id is ALWAYS the absent-sentinel `false`, even for a link whose query
plainly carries `tid=ABC123` (second conjunct: parsing the link's query
STRING, as the claim describes, does produce `"ABC123"`). -/
theorem c4_tid_never_resolved :
    (∀ (doc : DocCtx) (frag : TheaterFrag) (alternate : Bool),
        theaterIdResolve doc frag alternate = none) ∧
    qsLookup (str "tid")
        (qsParse (QsInput.ofString
          ((urlParse (str "/movies?near=new+york&tid=ABC123")).query.getD []))) =
      some (str "ABC123") := by
  constructor
  · intro doc frag alternate
    unfold theaterIdResolve
    cases firstSome (if alternate then frag.nameLinkHref else frag.descNameLinkHref)
        doc.leftNavHref with
    | none => rfl
    | some u => rfl
  · decide

theorem parseMovie_theaterFirst_frag (doc : DocCtx) (frag : MovieFrag) (sid : Option Str)
    (out : Option MovieRec × MovieFrag)
    (h : parseMovie doc frag false sid = Except.ok out) : out.2 = frag := by
  have hfalse : ((false : Bool) = true) = False := by simp
  unfold parseMovie at h
  simp only [hfalse, ite_false, Bool.false_and] at h
  split at h
  · injection h with h'
    subst h'
    rfl
  · split at h
    · simp at h
    · injection h with h'
      subst h'
      rfl

/-- C5 (amended): in theater-first mode `_parseMovie` reads but never
mutates the fragment, so the returned fragment equals the input and a
second application returns exactly the same result; in movie-first mode
the extraction mutates the fragment (the first `<br>` of the info markup
is rewritten and the last child of the secondary description panel is
removed), so a second application can return a different record (see the
counterexample). -/
theorem c5_amended_thm (doc : DocCtx) (frag : MovieFrag) (sid : Option Str) :
    (parseMovie doc frag false sid).map Prod.snd =
      (parseMovie doc frag false sid).map (fun _ => frag) ∧
    (parseMovie doc frag false sid).bind
        (fun out => parseMovie doc out.2 false sid) =
      parseMovie doc frag false sid := by
  rcases hE : parseMovie doc frag false sid with e | out
  · exact ⟨rfl, rfl⟩
  · have h2 : out.2 = frag := parseMovie_theaterFirst_frag doc frag sid out hE
    constructor
    · simp [Except.map, h2]
    · simp only [Except.bind, h2, hE]

/-- C5 counterexample: `_parseMovie` in movie-first mode with a
pre-supplied id MUTATES the fragment — each application removes the then
last element child of `#SynopsisSecond0` — so applying it twice to the
same fragment yields records with different descriptions (`"Intro. More
synopsis text."` vs `"Intro."`), refuting the claimed idempotence. -/
theorem c5_counterexample :
    exOk ((parseMovie ⟨none⟩ c5Frag true (some (str "m1"))).bind (fun out =>
        (parseMovie ⟨none⟩ out.2 true (some (str "m1"))).map (fun out2 =>
          decide (out2.1 = out.1)))) = some false ∧
    exOk ((parseMovie ⟨none⟩ c5Frag true (some (str "m1"))).map
        (fun out => out.1.map MovieRec.description)) =
      some (some (some (str "Intro. More synopsis text."))) ∧
    exOk (((parseMovie ⟨none⟩ c5Frag true (some (str "m1"))).bind (fun out =>
        parseMovie ⟨none⟩ out.2 true (some (str "m1")))).map
        (fun out2 => out2.1.map MovieRec.description)) =
      some (some (some (str "Intro."))) := by decide

/-- The per-page action of `paginate` agrees with `onPage` (the recursion
merely drives the same shared page body). -/
theorem paginate_cons_onPage {α : Type} (keep : α → Bool) (limit : Nat)
    (d : ListPage α) (rest : List (ListPage α)) (page : Nat) (acc : List α) :
    paginate keep limit (d :: rest) page acc =
      (match onPage keep page limit acc d with
       | .next p2 acc2 =>
         ((paginate keep limit rest p2 acc2).1 + 1,
          (paginate keep limit rest p2 acc2).2.1,
          (paginate keep limit rest p2 acc2).2.2)
       | s => (1, s, page)) := by
  rw [paginate]
  simp only [onPage]
  split
  · rfl
  · split <;> rfl

theorem paginate_all {α : Type} (keep : α → Bool) (limit : Nat) (dflt : ListPage α) :
    ∀ (pages : List (ListPage α)) (p : Nat) (acc : List α),
      chained pages = true →
      (∀ d ∈ pages, d.recs.isEmpty = false) →
      pages ≠ [] →
      p + pages.length ≤ limit + 1 →
      paginate keep limit pages p acc =
        (pages.length,
         PageStep.cb JsVal.null (some ⟨(lastPageD dflt pages).location,
           (lastPageD dflt pages).day, acc ++ flatFiltered keep pages⟩),
         p + pages.length - 1)
  | [], _, _, _, _, hp, _ => absurd rfl hp
  | [d], p, acc, hch, hne, _, _ => by
    have hnoNext : d.hasNext = false := by
      simpa [chained] using hch
    have hrec : d.recs.isEmpty = false := hne d (by simp)
    simp [paginate, hrec, hnoNext, flatFiltered, lastPageD]
  | d :: r :: rs, p, acc, hch, hne, _, hlim => by
    have hNext : d.hasNext = true := by
      have := hch
      simp only [chained, Bool.and_eq_true] at this
      exact this.1
    have hchr : chained (r :: rs) = true := by
      have := hch
      simp only [chained, Bool.and_eq_true] at this
      exact this.2
    have hrec : d.recs.isEmpty = false := hne d (by simp)
    have hplim : p ≠ limit := by
      simp only [List.length_cons] at hlim
      omega
    have hner : ∀ x ∈ r :: rs, x.recs.isEmpty = false := fun x hx => hne x (by simp [hx])
    have hlimr : p + 1 + (r :: rs).length ≤ limit + 1 := by
      simp only [List.length_cons] at hlim ⊢
      omega
    have ih := paginate_all keep limit dflt (r :: rs) (p + 1)
      (acc ++ d.recs.filter keep) hchr hner (by simp) hlimr
    rw [paginate, ih]
    simp only [hrec, hNext, Bool.false_eq_true, if_false, Bool.true_eq_false, false_or,
      if_neg hplim, ite_false]
    rw [Prod.mk.injEq, Prod.mk.injEq]
    refine ⟨by simp, ?_, ?_⟩
    · simp [flatFiltered, lastPageD]
    · simp only [List.length_cons]
      omega

theorem paginate_limit_fetches {α : Type} (keep : α → Bool) (limit : Nat) :
    ∀ (pages : List (ListPage α)) (p : Nat) (acc : List α),
      chained pages = true →
      (∀ d ∈ pages, d.recs.isEmpty = false) →
      p ≤ limit →
      limit + 1 ≤ p + pages.length →
      (paginate keep limit pages p acc).1 = limit - p + 1
  | [], p, acc, _, _, h1, h2 => by simp at h2; omega
  | d :: rest, p, acc, hch, hne, h1, h2 => by
    have hrec : d.recs.isEmpty = false := hne d (by simp)
    by_cases hpl : p = limit
    · rw [show limit - p + 1 = 1 by omega, paginate]
      simp [hrec, hpl]
    · have hplt : p < limit := by omega
      have hrest : rest ≠ [] := by
        intro hre
        subst hre
        simp at h2
        omega
      match rest, hrest with
      | r :: rs, _ =>
        have hNext : d.hasNext = true := by
          have := hch
          simp only [chained, Bool.and_eq_true] at this
          exact this.1
        have hchr : chained (r :: rs) = true := by
          have := hch
          simp only [chained, Bool.and_eq_true] at this
          exact this.2
        have hner : ∀ x ∈ r :: rs, x.recs.isEmpty = false := fun x hx => hne x (by simp [hx])
        have ih := paginate_limit_fetches keep limit (r :: rs) (p + 1)
          (acc ++ d.recs.filter keep) hchr hner (by omega) (by simp at h2 ⊢; omega)
        rw [paginate]
        simp only [hrec, hNext, Bool.false_eq_true, if_false, Bool.true_eq_false, false_or,
          if_neg hpl, ite_false, ih]
        omega

theorem flatFiltered_length {α : Type} (keep : α → Bool) (pages : List (ListPage α)) :
    (flatFiltered keep pages).length =
      (pages.map (fun d => (d.recs.filter keep).length)).sum := by
  induction pages with
  | nil => rfl
  | cons d rest ih =>
    simp only [flatFiltered] at ih
    simp [flatFiltered, ih]

/-- C3: for a run of `N` result pages, each except the last showing a
"Next" control and each carrying at least one fragment, the pagination
skeleton shared by `getTheaters` and `getMovies` performs exactly `N`
fetches when the page limit is the unconfigured default `999` (and
`N ≤ 999`), delivering ONE final callback whose accumulator is the
concatenation of the kept (non-empty) records of all pages — so its
length is the sum of the per-page kept-record counts; with a configured
limit `K < N` it performs exactly `K` fetches. -/
theorem c3_pagination {α : Type} (keep : α → Bool) (dflt : ListPage α)
    (pages : List (ListPage α)) (K : Nat)
    (hch : chained pages = true)
    (hne : ∀ d ∈ pages, d.recs.isEmpty = false)
    (hp : pages ≠ []) :
    (pages.length ≤ 999 →
      paginate keep 999 pages 1 [] =
        (pages.length,
         PageStep.cb JsVal.null (some ⟨(lastPageD dflt pages).location,
           (lastPageD dflt pages).day, flatFiltered keep pages⟩),
         pages.length)) ∧
    (flatFiltered keep pages).length =
      (pages.map (fun d => (d.recs.filter keep).length)).sum ∧
    (1 ≤ K → K < pages.length → (paginate keep K pages 1 []).1 = K) := by
  refine ⟨fun hlen => ?_, flatFiltered_length keep pages, fun hK1 hK2 => ?_⟩
  · have h := paginate_all keep 999 dflt pages 1 [] hch hne hp (by omega)
    simpa [Nat.add_comm] using h
  · have h := paginate_limit_fetches keep K pages 1 [] hch hne hK1 (by omega)
    rw [h]
    omega

theorem c3_pagination_witness :
    paginate theaterKeep 999 [w3PageA, w3PageB] 1 [] =
      (2, PageStep.cb JsVal.null
        (some ⟨str "NYC, NY", str "Today", [w3Rec, w3Rec]⟩), 2) ∧
    (flatFiltered theaterKeep [w3PageA, w3PageB]).length =
      ([w3PageA, w3PageB].map (fun d => (d.recs.filter theaterKeep).length)).sum ∧
    (paginate theaterKeep 1 [w3PageA, w3PageB] 1 []).1 = 1 := by
  have h := c3_pagination theaterKeep w3PageA [w3PageA, w3PageB] 1
    (by decide) (by decide) (by decide)
  refine ⟨?_, h.2.1, h.2.2 (by decide) (by decide)⟩
  rw [h.1 (by decide)]
  decide

/-- C7 (amended): in `getTheaters`, in `getMovies` and in the nested
movie loop of `_parseTheater`, a fragment whose extracted name is empty
contributes no record, surfaces no error, and leaves the processing of
the remaining fragments unchanged; in `getMovie`, however, the empty-name
result (`false`) is unguarded and the strict-mode property assignment
`movieData.theaters = []` on it throws a `TypeError`. -/
theorem c7_amended_thm
    (doc : DocCtx) (f : TheaterFrag) (fs : List TheaterFrag) (t : TheaterRec)
    (mf : MovieFrag) (mfs : List MovieFrag)
    (it : MovieListItem) (its : List MovieListItem)
    (mdoc : MoviePageDoc) (mid : Str) :
    (parseTheater doc f false none = Except.ok t → t.name = [] →
      extractTheatersList doc (f :: fs) = extractTheatersList doc fs) ∧
    ((parseMovie doc mf false none).map Prod.fst = Except.ok none →
      parseMoviesList doc (mf :: mfs) = parseMoviesList doc mfs) ∧
    ((parseMovie doc it.frag true none).map Prod.fst = Except.ok none →
      extractMoviesList doc (it :: its) = extractMoviesList doc its) ∧
    (mdoc.movieFrag.nameAltText = [] →
      getMovieHandler mdoc mid = Except.error JsErr.typeErr) := by
  refine ⟨fun h1 h2 => ?_, fun h => ?_, fun h => ?_, fun h => ?_⟩
  · simp only [extractTheatersList, h1]
    cases extractTheatersList doc fs with
    | error e => rfl
    | ok rest => simp [h2]
  · cases hpm : parseMovie doc mf false none with
    | error e => rw [hpm] at h; simp [Except.map] at h
    | ok out =>
      rw [hpm] at h
      have hfst : out.1 = none := by simpa [Except.map] using h
      simp only [parseMoviesList, hpm, hfst]
      cases parseMoviesList doc mfs with
      | error e => rfl
      | ok rest => rfl
  · cases hpm : parseMovie doc it.frag true none with
    | error e => rw [hpm] at h; simp [Except.map] at h
    | ok out =>
      rw [hpm] at h
      have hfst : out.1 = none := by simpa [Except.map] using h
      simp only [extractMoviesList, hpm, hfst]
  · have hpm : parseMovie mdoc.ctx mdoc.movieFrag true (some mid) =
        Except.ok (none, mdoc.movieFrag) := by
      unfold parseMovie
      simp [h]
    simp only [getMovieHandler, hpm]

/-- C7 counterexample: in the `getMovie` caller path an empty-name
fragment is NOT skipped silently — `_parseMovie` returns `false`,
and the unguarded strict-mode assignment `movieData.theaters = []`
(source line 214) throws a `TypeError`, surfacing an error instead of
continuing normally. -/
theorem c7_counterexample :
    c7Doc.movieFrag.nameAltText = [] ∧
    getMovieHandler c7Doc (str "123") = Except.error JsErr.typeErr := ⟨rfl, rfl⟩

theorem c7_amended_witness :
    extractTheatersList ⟨none⟩ [w7TFrag] = Except.ok [] ∧
    parseMoviesList ⟨none⟩ [c7Frag] = Except.ok [] ∧
    extractMoviesList ⟨none⟩ [⟨c7Frag, [], false⟩] = Except.ok [] ∧
    getMovieHandler c7Doc (str "m") = Except.error JsErr.typeErr := by
  have h := c7_amended_thm ⟨none⟩ w7TFrag [] w7TRec c7Frag [] ⟨c7Frag, [], false⟩ [] c7Doc
    (str "m")
  refine ⟨?_, ?_, ?_, h.2.2.2 rfl⟩
  · rw [h.1 rfl rfl]; rfl
  · rw [h.2.1 rfl]; rfl
  · rw [h.2.2.1 rfl]; rfl

/-- C8: a failed fetch propagates the transport error verbatim through
the callback's error argument (or the generic unknown-error string when
no error object exists but the status is not 200), while a 200 page with
zero fragments invokes the callback with the page's own `#results` text
as payload — not a transport error — and a 200 page with fragments (and
no further pagination) delivers the structured `{location, date, data}`
success with `null` in the error slot. -/
theorem c8_errors_and_empty {α : Type} (e : Str) (status : Nat)
    (keep : α → Bool) (page limit : Nat) (acc : List α) (d : ListPage α) :
    (requestStep (some e) status (onPage keep page limit acc) d =
      PageStep.cb (JsVal.errObj e) none) ∧
    (status ≠ 200 →
      requestStep none status (onPage keep page limit acc) d =
        PageStep.cb (JsVal.str unknownErrorMsg) none) ∧
    (d.recs = [] →
      requestStep none 200 (onPage keep page limit acc) d =
        PageStep.cb (JsVal.str d.resultsText) none) ∧
    (d.recs ≠ [] → d.hasNext = false →
      requestStep none 200 (onPage keep page limit acc) d =
        PageStep.cb JsVal.null (some ⟨d.location, d.day, acc ++ d.recs.filter keep⟩)) := by
  refine ⟨?_, fun hs => ?_, fun hrecs => ?_, fun hrecs hnx => ?_⟩
  · simp [requestStep]
  · simp [requestStep, hs]
  · simp [requestStep, onPage, hrecs]
  · have hie : d.recs.isEmpty = false := by
      cases hd : d.recs with
      | nil => exact absurd hd hrecs
      | cons a as => rfl
    simp [requestStep, onPage, hie, hnx]

theorem c8_witness :
    (requestStep (some (str "socket hang up")) 200
        (onPage theaterKeep 1 999 []) c8Page =
      PageStep.cb (JsVal.errObj (str "socket hang up")) none) ∧
    (requestStep none 404 (onPage theaterKeep 1 999 []) c8Page =
      PageStep.cb (JsVal.str unknownErrorMsg) none) ∧
    (requestStep none 200 (onPage theaterKeep 1 999 [])
        ({ c8Page with recs := [] } : ListPage TheaterRec) =
      PageStep.cb (JsVal.str (str "No showtimes were found on: 10/12/2026")) none) ∧
    (requestStep none 200 (onPage theaterKeep 1 999 []) c8Page =
      PageStep.cb JsVal.null (some ⟨str "NYC", str "Today", [w3Rec]⟩)) := by
  refine ⟨(c8_errors_and_empty (str "socket hang up") 200 theaterKeep 1 999 [] c8Page).1,
    (c8_errors_and_empty (str "socket hang up") 404 theaterKeep 1 999 [] c8Page).2.1
      (by decide), ?_, ?_⟩
  · have h := (c8_errors_and_empty (str "socket hang up") 200 theaterKeep 1 999 []
      ({ c8Page with recs := [] } : ListPage TheaterRec)).2.2.1 rfl
    rw [h]
    rfl
  · have h := (c8_errors_and_empty (str "socket hang up") 200 theaterKeep 1 999 []
      c8Page).2.2.2 (by decide) rfl
    rw [h]
    decide

/-- C9 counterexample: with language `"tr"`, the byte 0xDD ('İ' in the
Turkish legacy encoding) is re-decoded by `getTheaters` but passed
through as the Latin-1 'Ý' by `getTheater` — the claim that ALL FOUR
public operations reinterpret the bytes is false for `getTheater` (and
`getMovie`). -/
theorem c9_counterexample :
    getTheaterLoadInput (str "tr") [0xdd] = [Char.ofNat 0xdd] ∧
    getMovieLoadInput (str "tr") [0xdd] = [Char.ofNat 0xdd] ∧
    getTheatersLoadInput (str "tr") [0xdd] = [Char.ofNat 0x130] ∧
    getTheaterLoadInput (str "tr") [0xdd] ≠ getTheatersLoadInput (str "tr") [0xdd] := by
  decide

/-- C9 (amended): the latin5 reinterpretation of the raw response bytes
before tree-parsing happens — when the configured language code is
`"tr"` — in `getTheaters` and `getMovies` ONLY; `getTheater` and
`getMovie` always load the binary-decoded bytes unchanged. -/
theorem c9_amended_thm (lang : Str) (raw : List Nat) :
    getTheatersLoadInput lang raw =
      (if lang = str "tr" then latin5Decode raw else binaryDecode raw) ∧
    getMoviesLoadInput lang raw =
      (if lang = str "tr" then latin5Decode raw else binaryDecode raw) ∧
    getTheaterLoadInput lang raw = binaryDecode raw ∧
    getMovieLoadInput lang raw = binaryDecode raw :=
  ⟨rfl, rfl, rfl, rfl⟩

/-- C10 counterexample: the start offset of the next single fetch
(`getTheater`/`getMovie` route their query through `_request`, which
reads the leftover `this.page`) DEPENDS on which paginated call ran
before on the same instance: after a two-page `getTheaters` run the next
fetch carries `start = 10`, after a one-page run `start = 0` — refuting
the claimed history-independence. -/
theorem c10_counterexample :
    startOffset (runListCall theaterKeep ⟨999, none⟩ [c10Page1, c10Page2]).1 = some 10 ∧
    startOffset (runListCall theaterKeep ⟨999, none⟩ [c10Page2]).1 = some 0 ∧
    (some 10 : Option Nat) ≠ some 0 := by decide

/-- C10 (amended): `getTheaters`/`getMovies` reset the instance's page
counter and accumulator on entry, so the RESULT of a listing call is
independent of whatever `this.page` value a previous call left behind;
but the instance keeps the final page counter, and the `start` offset of
a subsequent `getTheater`/`getMovie` fetch is computed from that leftover
value (`(page - 1) * 10`), so it does depend on the preceding paginated
call. -/
theorem c10_amended_thm {α : Type} (keep : α → Bool) (limit : Nat)
    (p1 p2 : Option Nat) (pages : List (ListPage α)) :
    (runListCall keep ⟨limit, p1⟩ pages).2 = (runListCall keep ⟨limit, p2⟩ pages).2 ∧
    startOffset (runListCall keep ⟨limit, p1⟩ pages).1 =
      some (((paginate keep limit pages 1 []).2.2 - 1) * 10) :=
  ⟨rfl, rfl⟩

end Showtimes

